import Mathlib

/-
Verification of the screwdrivercd utilities against their specification.

This file shallowly embeds the two source modules
  * src/screwdrivercd/screwdriver/github_deploykey.py
  * src/screwdrivercd/documentation/cli.py
into Lean.  Subprocess invocations are modelled by passing their outputs /
outcomes as parameters and by recording an event trace; byte strings are
modelled as `List Nat` (one entry per byte); Python exceptions are modelled
with `Except`.  Where a Python standard-library operation is semantically
relevant (str/bytes distinctions, keyword-argument checking of the logging
module, base64 decoding) the operation itself is embedded.
-/

/-- Python exception kinds that the embedded code can raise. -/
inductive PyErr where
  | typeError
  | valueError
  | calledProcessError
  | binasciiError
  | uncaughtDocPublishError
deriving DecidableEq, Repr

/-- ASCII byte string of a Lean string literal; this matches the bytes of a
Python `b'...'` literal (all literals used by the embedded code are ASCII). -/
def asciiBytes (s : String) : List Nat := s.toList.map Char.toNat

/-- Value of a six-bit base64 alphabet character, none for other characters. -/
def b64Val (c : Char) : Option Nat :=
  if 'A' ≤ c ∧ c ≤ 'Z' then some (c.toNat - 65)
  else if 'a' ≤ c ∧ c ≤ 'z' then some (c.toNat - 97 + 26)
  else if '0' ≤ c ∧ c ≤ '9' then some (c.toNat - 48 + 52)
  else if c = '+' then some 62
  else if c = '/' then some 63
  else none

/-- Models `base64.b64decode` on inputs made only of alphabet and padding
characters (the inputs used here): groups of four characters decode to three
bytes, a final group may carry one or two `=` padding characters, and any
other shape raises `binascii.Error`. -/
def b64DecodeGroups : List Char → Except PyErr (List Nat)
  | [] => .ok []
  | a :: b :: c :: d :: rest =>
    match b64Val a, b64Val b with
    | some va, some vb =>
      if c = '=' ∧ d = '=' ∧ rest = [] then
        .ok [va * 4 + vb / 16]
      else
        match b64Val c with
        | some vc =>
          if d = '=' ∧ rest = [] then
            .ok [va * 4 + vb / 16, (vb % 16) * 16 + vc / 4]
          else
            match b64Val d with
            | some vd =>
              match b64DecodeGroups rest with
              | .error e => .error e
              | .ok tail =>
                .ok ([va * 4 + vb / 16, (vb % 16) * 16 + vc / 4, (vc % 4) * 64 + vd] ++ tail)
            | none => .error .binasciiError
        | none => .error .binasciiError
    | _, _ => .error .binasciiError
  | _ => .error .binasciiError

/-- Models `base64.b64decode` applied to a str. -/
def b64decode (s : String) : Except PyErr (List Nat) := b64DecodeGroups s.toList

/-- A Python value that is either a str or a bytes object; `git_key_secret`
returns a str on the empty path and bytes on the decoded path. -/
inductive PyVal where
  | str (s : String)
  | bytes (b : List Nat)
deriving DecidableEq, Repr

/-- Python truthiness for the values `git_key_secret` can return. -/
def pyTruthy : PyVal → Bool
  | .str s => !(s == "")
  | .bytes b => !(b == [])

/-- Observable events of the deploy-key utility: subprocess invocations,
filesystem actions and console output, in program order. -/
inductive Ev where
  | print (s : String)
  | mkTempDir
  | openW
  | chmod (mode : Nat)
  | writeFile (content : List Nat)
  | removeTempDir
  | sshAdd (keyFileContent : List Nat)
  | gitConfig (key value : String)
  | gitRemoteV
  | gitSetUrl (url : String)
  | sshKeyscan
  | sshKeygen
  | writePyproject
  | installdeps
deriving DecidableEq, Repr

/-- Whether an event is the invocation of a subprocess (or of the external
dependency-installer entry point, which itself spawns package managers). -/
def isSubprocess : Ev → Bool
  | .sshAdd _ => true
  | .gitConfig _ _ => true
  | .gitRemoteV => true
  | .gitSetUrl _ => true
  | .sshKeyscan => true
  | .sshKeygen => true
  | .installdeps => true
  | _ => false

/-- The module-level fingerprint registry, in dict insertion order:
the legacy RSA fingerprint and the SHA-256 fingerprint. -/
def fingerprints : List (String × List Nat) :=
  [("old github fingerprint",
    asciiBytes "16:27:ac:a5:76:28:2d:36:63:1b:56:4d:eb:df:a6:48"),
   ("new github_fingerprint",
    asciiBytes "SHA256:nThbg6kXUpJWGl7E1IGOCspRomTxdCARLviKw6E5SY8")]

/-- Models the Python membership test `needle in haystack` for two bytes
objects: true exactly when the needle occurs as a contiguous substring of
the haystack. -/
def pyInBytes (needle : List Nat) : List Nat → Bool
  | [] => needle.isPrefixOf []
  | b :: rest => needle.isPrefixOf (b :: rest) || pyInBytes needle rest

/-- Keyword arguments accepted by CPython's `logging.Logger._log`. -/
def logKwargsAllowed : List String := ["exc_info", "extra", "stack_info", "stacklevel"]

/-- Models CPython `logging.Logger.debug(msg, **kwargs)`: when the logger is
enabled for DEBUG it forwards the keyword arguments to `Logger._log`, which
accepts only `exc_info`, `extra`, `stack_info` and `stacklevel`; any other
keyword (such as `file=sys.stderr`) raises `TypeError`.  When the logger is
not enabled for DEBUG the call returns without evaluating `_log`. -/
def loggerDebug (debugEnabled : Bool) (kwargs : List String) : Except PyErr Unit :=
  if debugEnabled && kwargs.any (fun k => !(logKwargsAllowed.contains k)) then
    .error .typeError
  else
    .ok ()

/-- Loop body of `validate_known_good_hosts`: for each registered fingerprint,
if it is not contained in the `ssh-keygen -l` output, call
`logger.debug(f'...', file=sys.stderr)` and continue; otherwise set the
match flag. -/
def validateLoop (debugEnabled : Bool) (output : List Nat) :
    List (String × List Nat) → Bool → Except PyErr Bool
  | [], matched => .ok matched
  | (_, fingerprint) :: rest, matched =>
    if pyInBytes fingerprint output then
      validateLoop debugEnabled output rest true
    else
      match loggerDebug debugEnabled ["file"] with
      | .error e => .error e
      | .ok _ => validateLoop debugEnabled output rest matched

/-- `validate_known_good_hosts`: runs `ssh-keygen -l -f <known_hosts>` (its
output is the `keygenOutput` parameter, and the invocation is recorded in the
event trace) and scans the output for the registered fingerprints. -/
def validate_known_good_hosts (debugEnabled : Bool) (keygenOutput : List Nat) :
    Except PyErr Bool × List Ev :=
  (validateLoop debugEnabled keygenOutput fingerprints false, [Ev.sshKeygen])

/-- State of the known-hosts file and its parent directory: `none` means the
directory (resp. file) does not exist; a directory carries its mode, a file
carries its byte content and its mode. -/
structure KnownHostsFS where
  dirMode : Option Nat
  file : Option (List Nat × Nat)
deriving DecidableEq, Repr

/-- Byte content of the known-hosts file, empty when the file is absent. -/
def prevKnownHosts (fs : KnownHostsFS) : List Nat :=
  match fs.file with
  | some (c, _) => c
  | none => []

/-- `add_github_to_known_hosts`: `os.makedirs(dir, exist_ok=True, mode=0o700)`
creates the parent directory with mode 0o700 only when it does not exist (an
existing directory keeps its mode); `ssh-keyscan -H github.com` output is the
`scanOutput` parameter; the file is opened in append-binary mode, `fchmod`ed
to 0o600, and a newline byte followed by the raw scan output is appended. -/
def add_github_to_known_hosts (fs : KnownHostsFS) (scanOutput : List Nat) :
    KnownHostsFS × List Ev :=
  let newDirMode : Option Nat :=
    match fs.dirMode with
    | some m => some m
    | none => some 0o700
  ({ dirMode := newDirMode,
     file := some (prevKnownHosts fs ++ 10 :: scanOutput, 0o600) },
   [Ev.sshKeyscan])

/-- Models `fh.write(x)` on a file opened in text mode `'w'`: a str argument
is written (encoded; all content here is ASCII), a bytes argument raises
`TypeError: write() argument must be str, not bytes`. -/
def pyWriteText : PyVal → Except PyErr (List Nat)
  | .str s => .ok (asciiBytes s)
  | .bytes _ => .error .typeError

/-- `load_github_key`: inside a `tempfile.TemporaryDirectory` scope it opens
the key file in text mode, `fchmod`s it to 0o600, writes the secret and runs
`ssh-add <key_file>` (outcome given by `sshAddOk`).  The context manager
removes the temporary directory on every exit path, including when the write
raises `TypeError` or `ssh-add` fails with `CalledProcessError`. -/
def load_github_key (git_key : PyVal) (sshAddOk : Bool) :
    Except PyErr Unit × List Ev :=
  let pre := [Ev.mkTempDir, Ev.openW, Ev.chmod 0o600]
  match pyWriteText git_key with
  | .error e => (.error e, pre ++ [Ev.removeTempDir])
  | .ok content =>
    let evs := pre ++ [Ev.writeFile content, Ev.sshAdd content]
    if sshAddOk then
      (.ok (), evs ++ [Ev.removeTempDir])
    else
      (.error .calledProcessError, evs ++ [Ev.removeTempDir])

/-- `set_git_mail_config`: two unconditional `git config --global` calls. -/
def set_git_mail_config : List Ev :=
  [Ev.gitConfig "user.email" "dev-null@screwdriver.cd",
   Ev.gitConfig "user.name" "sd-buildbot"]

/-- ASCII whitespace bytes stripped and split on by Python `bytes.strip()`
and `bytes.split()`. -/
def isWsByte (n : Nat) : Bool :=
  n == 32 || n == 9 || n == 10 || n == 13 || n == 11 || n == 12

/-- Models `bytes.strip()`: removes leading and trailing whitespace bytes. -/
def bstrip (b : List Nat) : List Nat :=
  ((b.dropWhile isWsByte).reverse.dropWhile isWsByte).reverse

/-- Accumulator pass for `bytes.split()` with no argument: tokens are maximal
runs of non-whitespace bytes, empty tokens are never produced. -/
def bsplitWsAux : List Nat → List Nat → List (List Nat)
  | [], acc => if acc == [] then [] else [acc.reverse]
  | n :: rest, acc =>
    if isWsByte n then
      if acc == [] then bsplitWsAux rest []
      else acc.reverse :: bsplitWsAux rest []
    else
      bsplitWsAux rest (n :: acc)

/-- Models `bytes.split()` with no argument. -/
def bsplitWs (b : List Nat) : List (List Nat) := bsplitWsAux b []

/-- Accumulator pass for `bytes.split(b'\n')`: splits on every newline byte,
keeping empty fields (so a newline-terminated input yields a trailing empty
field, and the empty input yields one empty field). -/
def bsplitNlAux : List Nat → List Nat → List (List Nat)
  | [], acc => [acc.reverse]
  | n :: rest, acc =>
    if n == 10 then acc.reverse :: bsplitNlAux rest []
    else bsplitNlAux rest (n :: acc)

/-- Models `bytes.split(b'\n')`. -/
def bsplitNl (b : List Nat) : List (List Nat) := bsplitNlAux b []

/-- Models the Python membership test `needle in haystack` with a str needle
and a bytes haystack: CPython raises
`TypeError: a bytes-like object is required, not 'str'` regardless of the
values involved. -/
def pyInStrBytes (_needle : String) (_haystack : List Nat) : Except PyErr Bool :=
  .error .typeError

/-- Result of `urllib.parse.urlparse` on a bytes URL. -/
structure ParsedUrlBytes where
  scheme : List Nat
  netloc : List Nat
  path : List Nat
deriving DecidableEq, Repr

/-- Models `urllib.parse.urlparse` on a bytes URL of the shape
`scheme://netloc/path` (the shape reaching this call in the source). -/
def urlparseBytes (url : List Nat) : ParsedUrlBytes :=
  let scheme := url.takeWhile (fun c => c != 58)
  let rest := (url.dropWhile (fun c => c != 58)).drop 3
  let netloc := rest.takeWhile (fun c => c != 47)
  let path := rest.dropWhile (fun c => c != 47)
  ⟨scheme, netloc, path⟩

/-- Models `bytes.lstrip(chars)` called with a str argument: CPython raises
`TypeError` because the argument of `bytes.lstrip` must itself be a
bytes-like object. -/
def bytesLstripStr (_b : List Nat) (_chars : String) : Except PyErr (List Nat) :=
  .error .typeError

/-- Renders bytes as the characters of their code points; only used on a line
that is unreachable (see `updateGitRemoteLine`), so its detail is immaterial. -/
def bytesAsString (b : List Nat) : String :=
  String.mk (b.map Char.ofNat)

/-- Loop body of `update_git_remote` on one line of `git remote -v` output:
`line.strip()`, three-name unpacking of `line.split()` (raising `ValueError`
on any other field count), the `origin`/`(push)` filters, the membership test
`'http' not in old_git_url` (str needle against a bytes haystack), and on the
match the construction of the new URL from the parsed old one.  Returns
`some url` for the `break` with a computed URL, `none` for `continue`. -/
def updateGitRemoteLine (line : List Nat) : Except PyErr (Option String) :=
  match bsplitWs (bstrip line) with
  | [remote, old_git_url, remote_type] =>
    if remote != asciiBytes "origin" then .ok none
    else if remote_type != asciiBytes "(push)" then .ok none
    else
      match pyInStrBytes "http" old_git_url with
      | .error e => .error e
      | .ok hasHttp =>
        if !hasHttp then .ok none
        else
          let parsed := urlparseBytes old_git_url
          match bytesLstripStr parsed.path "/" with
          | .error e => .error e
          | .ok strippedPath =>
            .ok (some ("git@" ++ bytesAsString parsed.netloc ++ ":"
                  ++ bytesAsString strippedPath))
  | _ => .error .valueError

/-- The `for line in remote_output.split(b'\n')` loop of `update_git_remote`:
stops at the first error or at the first `break`, otherwise continues. -/
def ugrLoop : List (List Nat) → Except PyErr (Option String)
  | [] => .ok none
  | l :: ls =>
    match updateGitRemoteLine l with
    | .error e => .error e
    | .ok (some url) => .ok (some url)
    | .ok none => ugrLoop ls

/-- `update_git_remote`: runs `git remote -v` (output is the parameter,
invocation recorded in the trace), scans its lines, and when a new URL was
computed issues `git remote set-url --push origin <url>`. -/
def update_git_remote (remoteOutput : List Nat) : Except PyErr Unit × List Ev :=
  match ugrLoop (bsplitNl remoteOutput) with
  | .error e => (.error e, [Ev.gitRemoteV])
  | .ok none => (.ok (), [Ev.gitRemoteV])
  | .ok (some url) => (.ok (), [Ev.gitRemoteV, Ev.gitSetUrl url])

/-- `git_key_secret`: reads the `GIT_KEY` environment variable; an unset or
empty value returns the empty str, otherwise the base64-decoded bytes are
returned (an invalid encoding raises `binascii.Error`). -/
def git_key_secret (gitKeyEnv : Option String) : Except PyErr PyVal :=
  match gitKeyEnv with
  | none => .ok (.str "")
  | some s =>
    if s == "" then .ok (.str "")
    else
      match b64decode s with
      | .error e => .error e
      | .ok b => .ok (.bytes b)

/-- `install_ssh_agent`: a no-op when `ssh-agent` resolves on the search
path; otherwise writes the packaged `pyproject.toml` manifest in a temporary
directory and delegates to the dependency-installer entry point. -/
def install_ssh_agent (agentPresent : Bool) : List Ev :=
  if agentPresent then [] else [Ev.writePyproject, Ev.installdeps]

/-- `setup_ssh_main`: short-circuits to 0 (printing a notice) when the secret
is absent or empty; otherwise installs the agent if missing, appends the
scanned github host keys to the known-hosts file and validates them (the
validation result is discarded, but an exception it raises propagates). -/
def setup_ssh_main (gitKeyEnv : Option String) (agentPresent : Bool)
    (fs : KnownHostsFS) (scanOutput keygenOutput : List Nat)
    (debugEnabled : Bool) : Except PyErr Nat × List Ev :=
  match git_key_secret gitKeyEnv with
  | .error e => (.error e, [])
  | .ok git_key =>
    if !pyTruthy git_key then
      (.ok 0, [Ev.print "No GIT_KEY secret present"])
    else
      let evs1 := install_ssh_agent agentPresent
      let evs2 := (add_github_to_known_hosts fs scanOutput).2
      match validate_known_good_hosts debugEnabled keygenOutput with
      | (.error e, evs3) => (.error e, evs1 ++ evs2 ++ evs3)
      | (.ok _, evs3) => (.ok 0, evs1 ++ evs2 ++ evs3)

/-- `add_deploykey_main`: short-circuits to 0 when the secret is absent or
empty; otherwise loads the key into the agent, sets the two git identity
config values and rewires the remote, returning 0. -/
def add_deploykey_main (gitKeyEnv : Option String) (sshAddOk : Bool)
    (remoteOutput : List Nat) : Except PyErr Nat × List Ev :=
  match git_key_secret gitKeyEnv with
  | .error e => (.error e, [])
  | .ok git_key =>
    if !pyTruthy git_key then
      (.ok 0, [])
    else
      match load_github_key git_key sshAddOk with
      | (.error e, evs1) => (.error e, evs1)
      | (.ok _, evs1) =>
        let evs2 := evs1 ++ set_git_mail_config
        match update_git_remote remoteOutput with
        | (.error e, evs3) => (.error e, evs2 ++ evs3)
        | (.ok _, evs3) => (.ok 0, evs2 ++ evs3)

/-- The two documentation error kinds of `screwdrivercd.documentation`. -/
inductive DocErr where
  | docBuildError
  | docPublishError
deriving DecidableEq, Repr

/-- Value of the `documentation_formats` variable in the documentation CLI:
it stays `None` when the environment variable is absent, stays an (empty,
falsy) str when the variable is set to the empty string, and becomes a list
of stripped comma-separated entries otherwise. -/
inductive Formats where
  | noneF
  | strF (s : String)
  | listF (l : List String)
deriving DecidableEq, Repr

/-- Models Python `str.strip()` on the whitespace stripped here. -/
def pyStrStrip (s : String) : String := s.trim

/-- The `DOCUMENTATION_FORMATS` parsing of the documentation CLI `main`:
`os.environ.get` followed by a truthiness-guarded comma split with
per-entry strip. -/
def documentationFormats (formatsEnv : Option String) : Formats :=
  match formatsEnv with
  | none => .noneF
  | some s =>
    if s == "" then .strF s
    else .listF ((s.splitOn ",").map pyStrStrip)

/-- Models `", ".join(x)` for the values `x` the CLI can hold: joining a
list concatenates its entries with the separator, joining a str iterates its
characters, and joining `None` raises `TypeError` because `None` is not an
iterable of strings. -/
def pyJoinStr (sep : String) : Formats → Except PyErr String
  | .noneF => .error .typeError
  | .strF s => .ok (String.intercalate sep (s.toList.map String.singleton))
  | .listF l => .ok (String.intercalate sep l)

/-- Terminal outcome of the documentation CLI `main`: a `sys.exit` code, a
success report to `update_job_status`, or an uncaught Python exception. -/
inductive CliOutcome where
  | exitCode (code : Nat)
  | success (msg : String)
  | raised (e : PyErr)
deriving DecidableEq, Repr

namespace Documentation

/-- `main` of the documentation CLI: parses `DOCUMENTATION_FORMATS`, runs
`publish_documentation` when the `DOCUMENTATION_PUBLISH` flag is set (with
both `DocBuildError` and `DocPublishError` converted to exit code 1) and
`build_documentation` otherwise (only `DocBuildError` converted; an uncaught
`DocPublishError` propagates), then reports the SUCCESS status built with
`", ".join(documentation_formats)`.  The provider outcome of whichever
operation runs is the `opResult` parameter. -/
def main (formatsEnv : Option String) (publishFlag : Bool)
    (opResult : Except DocErr Unit) : CliOutcome :=
  let fmts := documentationFormats formatsEnv
  match publishFlag, opResult with
  | true, .error .docBuildError => .exitCode 1
  | true, .error .docPublishError => .exitCode 1
  | false, .error .docBuildError => .exitCode 1
  | false, .error .docPublishError => .raised .uncaughtDocPublishError
  | _, .ok _ =>
    match pyJoinStr ", " fmts with
    | .error e => .raised e
    | .ok joined => .success ("Generated " ++ joined ++ " documentation")

end Documentation

/-- Whether a CLI outcome is a success report. -/
def CliOutcome.isSuccess : CliOutcome → Bool
  | .success _ => true
  | _ => false

/-- The joined format text appearing in the success message for a present
`DOCUMENTATION_FORMATS` value, stated from the spec's description of the
message: the comma-separated entries, stripped, joined by a comma-space
(empty for the empty value). -/
def joinedFormats (s : String) : String :=
  if s == "" then ""
  else String.intercalate ", " ((s.splitOn ",").map pyStrStrip)

/-- In an event trace, the key file's permissions are restricted to 0o600
before any file content is written: scanning in program order, a `chmod`
to 0o600 occurs strictly before the first `writeFile` (and a trace with
no such `chmod` at all does not qualify). -/
def chmodBeforeAnyWrite : List Ev → Bool
  | [] => false
  | e :: rest =>
    match e with
    | Ev.writeFile _ => false
    | Ev.chmod m => m == 0o600
    | _ => chmodBeforeAnyWrite rest

/-! ### Helper lemmas -/

/-- A list is a boolean prefix of itself followed by anything. -/
theorem isPrefixOf_append_self (l t : List Nat) : l.isPrefixOf (l ++ t) = true := by
  induction l with
  | nil => simp
  | cons a l ih => simp [List.isPrefixOf_cons₂, ih]

/-- The loop body of `update_git_remote` never reaches the `break` with a
computed URL: any line either raises (`TypeError` from the str-in-bytes
membership test, or `ValueError` from the three-name unpacking) or falls
through to the next line. -/
theorem updateGitRemoteLine_not_break (l : List Nat) :
    updateGitRemoteLine l = .error .typeError ∨
    updateGitRemoteLine l = .error .valueError ∨
    updateGitRemoteLine l = .ok none := by
  unfold updateGitRemoteLine
  split
  · split
    · exact Or.inr (Or.inr rfl)
    · split
      · exact Or.inr (Or.inr rfl)
      · exact Or.inl rfl
  · exact Or.inr (Or.inl rfl)

/-- Running the remote loop on a line list that ends with the empty line
always raises: either an earlier line raises first, or the trailing empty
line's three-name unpacking raises `ValueError`. -/
theorem ugrLoop_append_empty_error (pre : List (List Nat)) :
    ∃ e, ugrLoop (pre ++ [[]]) = .error e := by
  induction pre with
  | nil => exact ⟨PyErr.valueError, rfl⟩
  | cons l pre ih =>
    rcases updateGitRemoteLine_not_break l with hc | hc | hc
    · exact ⟨PyErr.typeError, by simp [ugrLoop, hc]⟩
    · exact ⟨PyErr.valueError, by simp [ugrLoop, hc]⟩
    · obtain ⟨e, he⟩ := ih
      exact ⟨e, by simp [ugrLoop, hc, he]⟩

/-- Unfolding: splitting a byte string that starts with a newline emits the
accumulated field and restarts with an empty accumulator. -/
theorem bsplitNlAux_cons_nl (rest acc : List Nat) :
    bsplitNlAux (10 :: rest) acc = acc.reverse :: bsplitNlAux rest [] := by
  simp [bsplitNlAux]

/-- Unfolding: a non-newline byte is pushed onto the accumulator. -/
theorem bsplitNlAux_cons_other (n : Nat) (rest acc : List Nat) (h : n ≠ 10) :
    bsplitNlAux (n :: rest) acc = bsplitNlAux rest (n :: acc) := by
  simp [bsplitNlAux, h]

/-- Splitting a newline-terminated byte string on newlines yields a line
list ending with the empty line. -/
theorem bsplitNlAux_ends_empty (b : List Nat) (h : b.getLast? = some 10) :
    ∀ acc : List Nat, ∃ pre, bsplitNlAux b acc = pre ++ [[]] := by
  induction b with
  | nil => simp at h
  | cons n rest ih =>
    intro acc
    cases rest with
    | nil =>
      have hn : n = 10 := by simpa using h
      subst hn
      refine ⟨[acc.reverse], ?_⟩
      rw [bsplitNlAux_cons_nl]
      rfl
    | cons m rest2 =>
      have h2 : (m :: rest2).getLast? = some 10 := by
        rwa [List.getLast?_cons_cons] at h
      by_cases hn : n = 10
      · subst hn
        obtain ⟨pre, hp⟩ := ih h2 []
        refine ⟨List.reverse acc :: pre, ?_⟩
        rw [bsplitNlAux_cons_nl, hp]
        rfl
      · obtain ⟨pre, hp⟩ := ih h2 (n :: acc)
        refine ⟨pre, ?_⟩
        rw [bsplitNlAux_cons_other n (m :: rest2) acc hn]
        exact hp

/-! ### Claim theorems -/

/-- C1: the claim states that `validate_known_good_hosts` returns true if and
only if the `ssh-keygen -l` output contains at least one registered
fingerprint.  The code diverges: on an output that contains the SHA-256
fingerprint but not the legacy one, the missing-fingerprint branch calls
`logger.debug(f'...', file=sys.stderr)`, and when the logger is enabled for
DEBUG that call raises `TypeError` (CPython `Logger._log` rejects the `file`
keyword), so the function raises instead of returning true.  With debug
logging disabled it returns true as claimed. -/
theorem claim_C1 :
    ((fingerprints.map Prod.snd).any (fun fp => pyInBytes fp
        (asciiBytes "256 SHA256:nThbg6kXUpJWGl7E1IGOCspRomTxdCARLviKw6E5SY8 github.com (RSA)"))
      = true)
    ∧ (validate_known_good_hosts true
        (asciiBytes "256 SHA256:nThbg6kXUpJWGl7E1IGOCspRomTxdCARLviKw6E5SY8 github.com (RSA)")).1
      = Except.error PyErr.typeError
    ∧ (validate_known_good_hosts false
        (asciiBytes "256 SHA256:nThbg6kXUpJWGl7E1IGOCspRomTxdCARLviKw6E5SY8 github.com (RSA)")).1
      = Except.ok true :=
  ⟨by decide, rfl, rfl⟩

/-- C7: the claim states that on an output containing neither registered
fingerprint the function logs at debug level once per missing fingerprint and
returns false rather than raising.  The code diverges in the only
configuration in which the debug messages would be emitted: with the logger
enabled for DEBUG, the call `logger.debug(f'...', file=sys.stderr)` raises
`TypeError` because `Logger._log` rejects the `file` keyword argument.  With
debug logging disabled the call is a no-op and the function returns false. -/
theorem claim_C7 :
    ((fingerprints.map Prod.snd).all (fun fp => !pyInBytes fp
        (asciiBytes "2048 SHA256:zzzzzzzz unrelated-host-key github.com (RSA)")) = true)
    ∧ (validate_known_good_hosts true
        (asciiBytes "2048 SHA256:zzzzzzzz unrelated-host-key github.com (RSA)")).1
      = Except.error PyErr.typeError
    ∧ (validate_known_good_hosts false
        (asciiBytes "2048 SHA256:zzzzzzzz unrelated-host-key github.com (RSA)")).1
      = Except.ok false :=
  ⟨by decide, rfl, rfl⟩

/-- C2: the claim states that an origin HTTP(S) push remote is rewritten to
`git@example.com:org/repo` and an SSH-style remote issues no rewrite call.
The code diverges on both halves: `git remote -v` output is bytes, so on any
origin push line the membership test `'http' not in old_git_url` compares a
str against bytes and raises `TypeError` before any rewrite or break can
happen; no `set-url` invocation is ever issued (the trace holds only the
`git remote -v` call). -/
theorem claim_C2 :
    (update_git_remote (asciiBytes "origin\thttps://example.com/org/repo (push)")).1
      = Except.error PyErr.typeError
    ∧ (update_git_remote (asciiBytes "origin\thttps://example.com/org/repo (push)")).2
      = [Ev.gitRemoteV]
    ∧ (update_git_remote (asciiBytes "origin\tgit@github.com:org/repo.git (push)")).1
      = Except.error PyErr.typeError :=
  ⟨rfl, rfl, rfl⟩

/-- C3: with `GIT_KEY` unset or set to the empty string, both entry points
return 0 without invoking any subprocess (`setup_ssh_main` only prints a
notice; `add_deploykey_main` does nothing at all). -/
theorem claim_C3 (gitKeyEnv : Option String) (agentPresent : Bool)
    (fs : KnownHostsFS) (scanOutput keygenOutput : List Nat)
    (debugEnabled sshAddOk : Bool) (remoteOutput : List Nat)
    (h : gitKeyEnv = none ∨ gitKeyEnv = some "") :
    (setup_ssh_main gitKeyEnv agentPresent fs scanOutput keygenOutput debugEnabled).1
      = Except.ok 0
    ∧ ((setup_ssh_main gitKeyEnv agentPresent fs scanOutput keygenOutput debugEnabled).2.all
        (fun e => !isSubprocess e) = true)
    ∧ (add_deploykey_main gitKeyEnv sshAddOk remoteOutput).1 = Except.ok 0
    ∧ (add_deploykey_main gitKeyEnv sshAddOk remoteOutput).2 = [] := by
  rcases h with h | h <;> subst h <;> exact ⟨rfl, rfl, rfl, rfl⟩

/-- Witness for C3 at the concrete empty environment. -/
theorem claim_C3_witness :
    (setup_ssh_main none true ⟨none, none⟩ [] [] false).1 = Except.ok 0
    ∧ ((setup_ssh_main none true ⟨none, none⟩ [] [] false).2.all
        (fun e => !isSubprocess e) = true)
    ∧ (add_deploykey_main none true []).1 = Except.ok 0
    ∧ (add_deploykey_main none true []).2 = [] :=
  claim_C3 none true ⟨none, none⟩ [] [] false true [] (Or.inl rfl)

/-- C4: the claim states that with `GIT_KEY` set to the base64 encoding of
"dummy-key" and the agent present, `add_deploykey_main` runs `ssh-add` on a
file containing the decoded bytes, then sets the two git config values, then
inspects the remotes, and returns 0.  The code diverges: the secret decodes
to a bytes object, `load_github_key` opens the key file in text mode `'w'`,
and `fh.write(git_key)` with a bytes argument raises `TypeError`, so the run
aborts inside `load_github_key` — `ssh-add`, both `git config` calls and the
remote inspection never happen (the trace holds only the temporary-directory
and chmod actions, with the cleanup). -/
theorem claim_C4 :
    git_key_secret (some "ZHVtbXkta2V5") = Except.ok (PyVal.bytes (asciiBytes "dummy-key"))
    ∧ (add_deploykey_main (some "ZHVtbXkta2V5") true []).1 = Except.error PyErr.typeError
    ∧ (add_deploykey_main (some "ZHVtbXkta2V5") true []).2
      = [Ev.mkTempDir, Ev.openW, Ev.chmod 0o600, Ev.removeTempDir] :=
  ⟨rfl, rfl, by decide⟩

/-- C5: `load_github_key` restricts the key file to mode 0o600 before any
content is written, and the temporary directory is removed on every exit
path — normal return, `ssh-add` failure, and even the `TypeError` raised when
the secret is a bytes object — with the removal as the final action. -/
theorem claim_C5 (git_key : PyVal) (sshAddOk : Bool) :
    chmodBeforeAnyWrite (load_github_key git_key sshAddOk).2 = true
    ∧ Ev.removeTempDir ∈ (load_github_key git_key sshAddOk).2
    ∧ (load_github_key git_key sshAddOk).2.getLast? = some Ev.removeTempDir := by
  cases git_key <;> cases sshAddOk <;>
    simp [load_github_key, pyWriteText, chmodBeforeAnyWrite, List.getLast?_concat]

/-- C6 counterexample: the claim asserts that after a successful call the
parent directory has mode 0o700; when the directory already exists with mode
0o755, `os.makedirs(..., exist_ok=True, mode=0o700)` leaves its mode
untouched, so the claim fails at this input. -/
theorem claim_C6_counterexample :
    (add_github_to_known_hosts
        ⟨some 0o755, some (asciiBytes "github.com ssh-rsa AAA", 0o600)⟩
        (asciiBytes "github.com ssh-ed25519 BBB")).1.dirMode
      ≠ some 0o700 := by
  decide

/-- C6 (amended): `add_github_to_known_hosts` only appends — the new file
content is exactly the previous content, a single newline byte, then the raw
scan output (so the previous content is preserved as a prefix), the file ends
with mode 0o600, and the parent directory exists afterwards: it is created
with mode 0o700 when absent, while a pre-existing directory keeps its prior
mode. -/
theorem claim_C6 (fs : KnownHostsFS) (scanOutput : List Nat) :
    (add_github_to_known_hosts fs scanOutput).1.file
      = some (prevKnownHosts fs ++ 10 :: scanOutput, 0o600)
    ∧ (prevKnownHosts fs).isPrefixOf (prevKnownHosts fs ++ 10 :: scanOutput) = true
    ∧ (add_github_to_known_hosts fs scanOutput).1.dirMode
      = some (fs.dirMode.getD 0o700) := by
  obtain ⟨d, f⟩ := fs
  cases d <;> simp [add_github_to_known_hosts, isPrefixOf_append_self]

/-- C8 counterexample: the claim asserts that on success the CLI reports a
SUCCESS status message; with `DOCUMENTATION_FORMATS` absent and the publish
operation succeeding, the message formatting raises `TypeError` instead, so
no success report happens at this input. -/
theorem claim_C8_counterexample :
    Documentation.main none true (Except.ok ()) = CliOutcome.raised PyErr.typeError
    ∧ (Documentation.main none true (Except.ok ())).isSuccess = false := by
  decide

/-- C8 (amended): the CLI exits with code 1 whenever the publish operation
raises either documentation error kind and whenever the build-only operation
raises a build error; on success, provided `DOCUMENTATION_FORMATS` is present
in the environment, it reports a SUCCESS status message listing the parsed
formats. -/
theorem claim_C8 :
    (∀ (formatsEnv : Option String) (e : DocErr),
      Documentation.main formatsEnv true (Except.error e) = CliOutcome.exitCode 1)
    ∧ (∀ formatsEnv : Option String,
      Documentation.main formatsEnv false (Except.error DocErr.docBuildError)
        = CliOutcome.exitCode 1)
    ∧ (∀ (s : String) (publishFlag : Bool),
      Documentation.main (some s) publishFlag (Except.ok ())
        = CliOutcome.success ("Generated " ++ joinedFormats s ++ " documentation")) := by
  refine ⟨?_, ?_, ?_⟩
  · intro fE e; cases e <;> rfl
  · intro fE; rfl
  · intro s publishFlag
    by_cases hs : s = ""
    · subst hs; cases publishFlag <;> rfl
    · have hb : (s == "") = false := by simpa using hs
      cases publishFlag <;>
        simp [Documentation.main, documentationFormats, pyJoinStr, joinedFormats, hb]

/-- C9: with `DOCUMENTATION_FORMATS` absent (`documentation_formats` stays
`None`) and the invoked operation succeeding, the success path's
`", ".join(documentation_formats)` raises `TypeError`, so the CLI raises
instead of reporting success, on both the publish and the build-only path. -/
theorem claim_C9 (publishFlag : Bool) :
    Documentation.main none publishFlag (Except.ok ())
      = CliOutcome.raised PyErr.typeError := by
  cases publishFlag <;> rfl

/-- C10 counterexample: the claim holds that a newline-terminated output whose
origin push line carries an HTTP URL breaks out of the loop and completes
without error; at exactly such an input the run instead raises `TypeError`
(the str-in-bytes membership test fires before the break), so it does not
complete without error. -/
theorem claim_C10_counterexample :
    (update_git_remote (asciiBytes "origin\thttps://example.com/org/repo (push)\n")).1
      = Except.error PyErr.typeError :=
  rfl

/-- C10 (amended): the three-name unpacking of the stripped trailing empty
line raises `ValueError`, and for every newline-terminated `git remote -v`
output `update_git_remote` raises an error — it never completes without
error, because the only escape from the trailing empty line, the `break` on
an origin push HTTP line, itself raises `TypeError` at the str-in-bytes
membership test first. -/
theorem claim_C10 :
    updateGitRemoteLine [] = Except.error PyErr.valueError
    ∧ ∀ remoteOutput : List Nat, remoteOutput.getLast? = some 10 →
        ∃ e, (update_git_remote remoteOutput).1 = Except.error e := by
  refine ⟨rfl, ?_⟩
  intro out h
  obtain ⟨pre, hpre⟩ := bsplitNlAux_ends_empty out h []
  obtain ⟨e, he⟩ := ugrLoop_append_empty_error pre
  refine ⟨e, ?_⟩
  have hb : bsplitNl out = pre ++ [[]] := hpre
  simp [update_git_remote, hb, he]

/-- Witness for C10 at a concrete newline-terminated remote listing. -/
theorem claim_C10_witness :
    updateGitRemoteLine [] = Except.error PyErr.valueError
    ∧ ∃ e, (update_git_remote (asciiBytes "upstream\thttps://example.com/o/r (fetch)\n")).1
        = Except.error e :=
  ⟨claim_C10.1,
   claim_C10.2 (asciiBytes "upstream\thttps://example.com/o/r (fetch)\n") (by decide)⟩
